import Mathlib

/-!
Shallow embedding of the migration orchestration client
(class MigrationClient of the airport repository) and proofs about it.

The client is an in-memory state machine: four ordered steps, per-step retry
counters and override flags, driven by network calls.  Network behaviour is
abstracted into an environment record: each endpoint's response is a value of
the environment, a rejected fetch being an exception carrying its message.
Each method of the class is embedded as a pure function from the environment
and the instance state to an outcome: the returned boolean, the new instance
state, the list of network calls attempted by the invocation, the list of
callback events fired (modelling a callback bag in which every handler is
present), and the list of deferred tasks scheduled with setTimeout
(step numbers passed to continueToNextStep).  A deferred task has not run by
the time the method returns, matching the event-loop semantics of the source
language: a timer callback only runs after the current call chain resolves.
-/

namespace Airport

/-- Status enum of a migration step ("pending" | "in-progress" | "verifying"
| "completed" | "error"). -/
inductive StepStatus
  | pending
  | inProgress
  | verifying
  | completed
  | error
deriving DecidableEq, Repr

/-- Availability state of the service ("up" | "issue" | "maintenance"). -/
inductive ServiceState
  | up
  | issue
  | maintenance
deriving DecidableEq, Repr

/-- interface MigrationState of the source. -/
structure MigrationState where
  state : ServiceState
  message : String
  allowMigration : Bool
deriving DecidableEq, Repr

/-- interface MigrationStep of the source.  The optional fields model the
TS optional properties; updates writing undefined clear them to none. -/
structure MigrationStep where
  name : String
  status : StepStatus
  error : Option String
  isVerificationError : Option Bool
deriving DecidableEq, Repr

/-- interface MigrationParams of the source. -/
structure MigrationParams where
  service : String
  handle : String
  email : String
  password : String
  invite : Option String
deriving DecidableEq, Repr

/-- Result of JSON.parse on a response body, restricted to the two fields the
client reads: the truthiness of .success and the .message field (none when
the field is absent). -/
structure ParsedBody where
  success : Bool
  message : Option String
deriving DecidableEq, Repr

/-- An HTTP response as the client observes it: the .ok flag, the raw body
text, and the result of JSON.parse on that text (none when parsing throws). -/
structure Resp where
  ok : Bool
  raw : String
  parsed : Option ParsedBody
deriving DecidableEq, Repr

/-- Body of a response of the verification endpoint
(GET /api/migrate/status?step=N): the ready flag, the optional reason, and
the ten diagnostic fields abstracted to the string their JSON.stringify
rendering contributes to the error message. -/
structure VerificationStatus where
  ready : Bool
  reason : Option String
  details : String
deriving DecidableEq, Repr

/-- Outcome of the availability-gate request (GET /api/migration-state):
the fetch rejected, or the response was not ok, or it was ok and its body
parsed to a MigrationState. -/
inductive GateResult
  | threw (msg : String)
  | notOk
  | ok (ms : MigrationState)
deriving DecidableEq, Repr

/-- The network environment: the response of every endpoint the client
fetches.  A value (.error msg) models the fetch (or reading its body)
rejecting with an exception whose message is msg. -/
structure Env where
  gate : GateResult
  create : Except String Resp
  dataRepo : Except String Resp
  dataBlobs : Except String Resp
  dataPrefs : Except String Resp
  identityRequest : Except String Resp
  identitySign : String → Except String Resp
  finalize : Except String Resp
  status : Nat → Except String VerificationStatus

/-- Callback events fired by the client (one constructor per member of
interface MigrationCallbacks). -/
inductive Event
  | stepUpdate (index : Nat) (step : MigrationStep)
  | stateUpdate (ms : MigrationState)
  | retryUpdate (index : Nat) (attempts : Nat)
  | showContinueAnyway (index : Nat) (shown : Bool)
  | identityTokenRequired
  | migrationComplete
deriving DecidableEq, Repr

/-- Network calls attempted by the client, tagged by endpoint. -/
inductive Call
  | migrationState
  | create
  | dataRepo
  | dataBlobs
  | dataPrefs
  | identityRequest
  | identitySign (token : String)
  | finalize
  | status (step : Nat)
deriving DecidableEq, Repr

/-- The mutable instance state of the class: this.steps, this.retryAttempts
and this.showContinueAnyway.  The two records are total maps with the
defaults 0 and false, matching the defaulted reads of the source
(this.retryAttempts[i] || 0 and this.showContinueAnyway[i] || false). -/
structure St where
  steps : List MigrationStep
  retryAttempts : Nat → Nat
  showContinueAnyway : Nat → Bool

/-- Outcome of one method invocation: the returned boolean, the instance
state after the call, and the calls, events and deferred timer tasks
produced by the call (in order). -/
structure Outcome where
  result : Bool
  st : St
  calls : List Call
  events : List Event
  deferred : List Nat

/-- Point update of a total map (assignment to a record field). -/
def upd {α : Type} (f : Nat → α) (i : Nat) (v : α) : Nat → α :=
  fun j => if j = i then v else f j

/-- Default used when reading this.steps out of range (never happens on the
length-4 lists the class maintains). -/
def defaultStep : MigrationStep :=
  { name := "", status := .pending, error := none, isVerificationError := none }

/-- The initial four steps of the class (field initializer of this.steps,
also reassigned by the reset at the top of startMigration). -/
def initialSteps : List MigrationStep :=
  [ { name := "Create Account", status := .pending, error := none, isVerificationError := none },
    { name := "Migrate Data", status := .pending, error := none, isVerificationError := none },
    { name := "Migrate Identity", status := .pending, error := none, isVerificationError := none },
    { name := "Finalize Migration", status := .pending, error := none, isVerificationError := none } ]

/-- Freshly constructed (or reset) instance state. -/
def St.init : St :=
  { steps := initialSteps, retryAttempts := fun _ => 0, showContinueAnyway := fun _ => false }

/-- The JS expression (s || dflt) on an optional string: undefined and the
empty string are falsy. -/
def strOr (s : Option String) (dflt : String) : String :=
  match s with
  | none => dflt
  | some v => if v = "" then dflt else v

/-- Error message thrown on a non-ok response.  The source's branch is
try [const json = JSON.parse(text); throw new Error(json.message || dflt)]
catch [throw new Error(text || dflt)]: the inner throw is itself caught by
the surrounding catch, so whether or not the body parses, the thrown message
is always the raw body text (or the default when the body is empty); the
parsed message field never reaches the caller. -/
def nonOkError (responseText : String) (dflt : String) : String :=
  if responseText = "" then dflt else responseText

/-- Check applied by the client to the body of an ok response where the
catch replaces every failure with a fixed message: the body must parse as
JSON and carry a truthy success field. -/
def okBodyAccepted (r : Resp) : Bool :=
  match r.parsed with
  | some j => j.success
  | none => false

/-- The body of this.steps.map inside updateStepStatus, applied elementwise
with its running index (the extra first Nat argument): the step at the given
index receives the new status/error/flag, every step at a higher index is
reset to pending with cleared error and flag, lower steps are unchanged. -/
def updateStepsFrom (index : Nat) (status : StepStatus) (error : Option String)
    (isVer : Option Bool) : Nat → List MigrationStep → List MigrationStep
  | _, [] => []
  | i, s :: rest =>
    (if i = index then { s with status := status, error := error, isVerificationError := isVer }
     else if index < i then
       { s with status := .pending, error := none, isVerificationError := none }
     else s) :: updateStepsFrom index status error isVer (i + 1) rest

/-- private updateStepStatus(index, status, error?, callbacks?,
isVerificationError?): rewrites this.steps and fires onStepUpdate with the
updated step at the index. -/
def updateStepStatus (index : Nat) (status : StepStatus) (error : Option String)
    (isVer : Option Bool) (st : St) : St × Event :=
  let st' : St := { st with steps := updateStepsFrom index status error isVer 0 st.steps }
  (st', .stepUpdate index (st'.steps.getD index defaultStep))

/-- Shared failure tail of verifyStep (the not-ready branch and the catch
branch): increment the retry counter, fire onRetryUpdate, set the override
flag and fire onShowContinueAnyway when this is at least the second failure,
then mark the step error with the verification flag. -/
def verifyFail (stepNum : Nat) (msg : String) (st1 : St) (e1 : Event) : Outcome :=
  let currentAttempts := st1.retryAttempts stepNum
  let st2 : St := { st1 with retryAttempts := upd st1.retryAttempts stepNum (currentAttempts + 1) }
  let st3 : St :=
    if currentAttempts ≥ 1 then
      { st2 with showContinueAnyway := upd st2.showContinueAnyway stepNum true }
    else st2
  let showEvents : List Event :=
    if currentAttempts ≥ 1 then [.showContinueAnyway stepNum true] else []
  let (st4, e2) := updateStepStatus stepNum .error (some msg) (some true) st3
  { result := false, st := st4, calls := [.status stepNum],
    events := [e1, .retryUpdate stepNum (currentAttempts + 1)] ++ showEvents ++ [e2],
    deferred := [] }

/-- private verifyStep(stepNum, isManualSubmission, callbacks): consult the
verification endpoint for the step.  Automatic verification of step index 2
is skipped (returns false with no effect).  On ready: step completed, retry
state reset, and — for a step other than the last — the next phase is
scheduled with setTimeout (recorded as a deferred task, not run).  On a
not-ready verdict or an exception: retry counter incremented, override flag
set from the second failure on, step marked error with the verification
flag. -/
def verifyStep (env : Env) (stepNum : Nat) (isManualSubmission : Bool) (st : St) : Outcome :=
  if stepNum = 2 ∧ isManualSubmission = false then
    { result := false, st := st, calls := [], events := [], deferred := [] }
  else
    let (st1, e1) := updateStepStatus stepNum .verifying none none st
    match env.status stepNum with
    | .ok data =>
      if data.ready then
        let (st2, e2) := updateStepStatus stepNum .completed none none st1
        let st3 : St :=
          { st2 with retryAttempts := upd st2.retryAttempts stepNum 0,
                     showContinueAnyway := upd st2.showContinueAnyway stepNum false }
        { result := true, st := st3, calls := [.status stepNum],
          events := [e1, e2, .retryUpdate stepNum 0, .showContinueAnyway stepNum false],
          deferred := if stepNum < 3 then [stepNum + 1] else [] }
      else
        verifyFail stepNum
          (strOr data.reason "Verification failed" ++ "\nStatus details: " ++ data.details)
          st1 e1
    | .error e => verifyFail stepNum e st1 e1

/-- private executeStep1CreateAccount(params, callbacks): POST
/api/migrate/create.  An exception or a non-ok response marks step index 0
error (business error, no verification flag); on ok the body's success check
is swallowed by its own catch (the catch only logs), so the flow always
proceeds to verifying and verifyStep(0, false). -/
def executeStep1CreateAccount (env : Env) (_params : MigrationParams) (st : St) : Outcome :=
  let (st1, e1) := updateStepStatus 0 .inProgress none none st
  match env.create with
  | .error msg =>
    let (st2, e2) := updateStepStatus 0 .error (some msg) none st1
    { result := false, st := st2, calls := [.create], events := [e1, e2], deferred := [] }
  | .ok resp =>
    if resp.ok then
      let (st2, e2) := updateStepStatus 0 .verifying none none st1
      let v := verifyStep env 0 false st2
      { result := v.result, st := v.st, calls := .create :: v.calls,
        events := e1 :: e2 :: v.events, deferred := v.deferred }
    else
      let (st2, e2) :=
        updateStepStatus 0 .error (some (nonOkError resp.raw "Failed to create account")) none st1
      { result := false, st := st2, calls := [.create], events := [e1, e2], deferred := [] }

/-- Failure tail shared by the branches of executeStep2DataMigration (the
catch at its bottom): step index 1 goes to error without the verification
flag and the call returns false. -/
def step2Fail (msg : String) (st1 : St) (e1 : Event) (calls : List Call) : Outcome :=
  let (st2, e2) := updateStepStatus 1 .error (some msg) none st1
  { result := false, st := st2, calls := calls, events := [e1, e2], deferred := [] }

/-- private executeStep2DataMigration(callbacks): three sequential POSTs
(data/repo, data/blobs, data/prefs), each independently fatal; only when all
three are ok does step index 1 go to verifying and verifyStep(1, false)
run. -/
def executeStep2DataMigration (env : Env) (st : St) : Outcome :=
  let (st1, e1) := updateStepStatus 1 .inProgress none none st
  match env.dataRepo with
  | .error m => step2Fail m st1 e1 [.dataRepo]
  | .ok repoRes =>
    if repoRes.ok then
      match env.dataBlobs with
      | .error m => step2Fail m st1 e1 [.dataRepo, .dataBlobs]
      | .ok blobsRes =>
        if blobsRes.ok then
          match env.dataPrefs with
          | .error m => step2Fail m st1 e1 [.dataRepo, .dataBlobs, .dataPrefs]
          | .ok prefsRes =>
            if prefsRes.ok then
              let (st2, e2) := updateStepStatus 1 .verifying none none st1
              let v := verifyStep env 1 false st2
              { result := v.result, st := v.st,
                calls := [.dataRepo, .dataBlobs, .dataPrefs] ++ v.calls,
                events := e1 :: e2 :: v.events, deferred := v.deferred }
            else
              step2Fail (nonOkError prefsRes.raw "Failed to migrate preferences") st1 e1
                [.dataRepo, .dataBlobs, .dataPrefs]
        else
          step2Fail (nonOkError blobsRes.raw "Failed to migrate blobs") st1 e1
            [.dataRepo, .dataBlobs]
    else
      step2Fail (nonOkError repoRes.raw "Failed to migrate repo") st1 e1 [.dataRepo]

/-- The rewritten display name of step index 2 once the identity operation
has been requested. -/
def tokenPrompt : String :=
  "Enter the token sent to your email to complete identity migration"

/-- Rewrite of the name of the step at a position, leaving everything else
of the list unchanged (the direct assignment to this.steps[2] inside
executeStep3IdentityMigration, which bypasses updateStepStatus and so does
not reset higher steps). -/
def setStepName : Nat → String → List MigrationStep → List MigrationStep
  | _, _, [] => []
  | 0, n, s :: rest => { s with name := n } :: rest
  | i + 1, n, s :: rest => s :: setStepName i n rest

/-- Failure tail of executeStep3IdentityMigration: step index 2 goes to
error without the verification flag. -/
def step3Fail (msg : String) (st1 : St) (e1 : Event) : Outcome :=
  let (st2, e2) := updateStepStatus 2 .error (some msg) none st1
  { result := false, st := st2, calls := [.identityRequest], events := [e1, e2], deferred := [] }

/-- private executeStep3IdentityMigration(callbacks): guarded against
duplicate invocation (step index 2 already in-progress or completed returns
true with no effect); otherwise POST /api/migrate/identity/request.  On an
accepted body the step name becomes the token prompt, onStepUpdate and
onIdentityTokenRequired fire and the call returns true without verifying
(the deliberate suspension point); a rejected body yields the fixed message
because the catch replaces the thrown one. -/
def executeStep3IdentityMigration (env : Env) (st : St) : Outcome :=
  if (st.steps.getD 2 defaultStep).status = .inProgress ∨
      (st.steps.getD 2 defaultStep).status = .completed then
    { result := true, st := st, calls := [], events := [], deferred := [] }
  else
    let (st1, e1) := updateStepStatus 2 .inProgress none none st
    match env.identityRequest with
    | .error m => step3Fail m st1 e1
    | .ok resp =>
      if resp.ok then
        if okBodyAccepted resp then
          let st2 : St := { st1 with steps := setStepName 2 tokenPrompt st1.steps }
          { result := true, st := st2, calls := [.identityRequest],
            events := [e1, .stepUpdate 2 (st2.steps.getD 2 defaultStep), .identityTokenRequired],
            deferred := [] }
        else step3Fail "Invalid response from server during identity request" st1 e1
      else step3Fail (nonOkError resp.raw "Failed to request identity migration") st1 e1

/-- Failure tail of executeStep4Finalization: step index 3 goes to error
without the verification flag. -/
def step4Fail (msg : String) (st1 : St) (e1 : Event) : Outcome :=
  let (st2, e2) := updateStepStatus 3 .error (some msg) none st1
  { result := false, st := st2, calls := [.finalize], events := [e1, e2], deferred := [] }

/-- private executeStep4Finalization(callbacks): POST /api/migrate/finalize;
on an accepted body, step index 3 goes to verifying and verifyStep(3, false)
runs; only when that verification reports ready does onMigrationComplete
fire (exactly once) and the call return true. -/
def executeStep4Finalization (env : Env) (st : St) : Outcome :=
  let (st1, e1) := updateStepStatus 3 .inProgress none none st
  match env.finalize with
  | .error m => step4Fail m st1 e1
  | .ok resp =>
    if resp.ok then
      if okBodyAccepted resp then
        let (st2, e2) := updateStepStatus 3 .verifying none none st1
        let v := verifyStep env 3 false st2
        if v.result then
          { result := true, st := v.st, calls := .finalize :: v.calls,
            events := e1 :: e2 :: v.events ++ [.migrationComplete], deferred := v.deferred }
        else
          { result := false, st := v.st, calls := .finalize :: v.calls,
            events := e1 :: e2 :: v.events, deferred := v.deferred }
      else step4Fail "Invalid response from server during finalization" st1 e1
    else step4Fail (nonOkError resp.raw "Failed to finalize migration") st1 e1

/-- private continueToNextStep(stepNum, callbacks): dispatch to the phase
for the given step number (the default branch returns true). -/
def continueToNextStep (env : Env) (stepNum : Nat) (st : St) : Outcome :=
  match stepNum with
  | 1 => executeStep2DataMigration env st
  | 2 => executeStep3IdentityMigration env st
  | 3 => executeStep4Finalization env st
  | _ => { result := true, st := st, calls := [], events := [], deferred := [] }

/-- continueAnyway(stepIndex, callbacks): force the step completed (which
resets every higher step), clear its override flag, fire
onShowContinueAnyway(stepIndex, false), and chain synchronously into the
next phase unless this is the last step. -/
def continueAnyway (env : Env) (stepIndex : Nat) (st : St) : Outcome :=
  let (st1, e1) := updateStepStatus stepIndex .completed none none st
  let st2 : St := { st1 with showContinueAnyway := upd st1.showContinueAnyway stepIndex false }
  let evts : List Event := [e1, .showContinueAnyway stepIndex false]
  if stepIndex < 3 then
    let n := continueToNextStep env (stepIndex + 1) st2
    { result := n.result, st := n.st, calls := n.calls, events := evts ++ n.events,
      deferred := n.deferred }
  else
    { result := true, st := st2, calls := [], events := evts, deferred := [] }

/-- Failure tail of submitIdentityToken: step index 2 goes to error without
the verification flag. -/
def submitFail (token : String) (msg : String) (st : St) : Outcome :=
  let (st2, e2) := updateStepStatus 2 .error (some msg) none st
  { result := false, st := st2, calls := [.identitySign token], events := [e2], deferred := [] }

/-- submitIdentityToken(token, callbacks): an empty token returns false with
no effect; otherwise POST /api/migrate/identity/sign?token=...  A rejected
response or body leaves step index 2 in error (business error) and stops;
on acceptance the step goes to verifying and verifyStep(2, true) runs (the
one manual-submission oracle call); only when it reports ready does the step
go to completed and executeStep4Finalization run synchronously. -/
def submitIdentityToken (env : Env) (token : String) (st : St) : Outcome :=
  if token = "" then
    { result := false, st := st, calls := [], events := [], deferred := [] }
  else
    match env.identitySign token with
    | .error m => submitFail token m st
    | .ok resp =>
      if resp.ok then
        if okBodyAccepted resp then
          let (st1, e1) := updateStepStatus 2 .verifying none none st
          let v := verifyStep env 2 true st1
          if v.result then
            let (st2, e2) := updateStepStatus 2 .completed none none v.st
            let f := executeStep4Finalization env st2
            { result := f.result, st := f.st,
              calls := .identitySign token :: v.calls ++ f.calls,
              events := e1 :: v.events ++ e2 :: f.events,
              deferred := v.deferred ++ f.deferred }
          else
            { result := false, st := v.st, calls := .identitySign token :: v.calls,
              events := e1 :: v.events, deferred := v.deferred }
        else submitFail token "Invalid response from server" st
      else submitFail token (nonOkError resp.raw "Failed to complete identity migration") st

/-- retryVerification(stepIndex, callbacks): re-run only the oracle check;
the manual-submission flag is set exactly when the index is 2 and step 2
still carries the token-prompt name. -/
def retryVerification (env : Env) (stepIndex : Nat) (st : St) : Outcome :=
  let isManualSubmission : Bool :=
    stepIndex == 2 && (st.steps.getD 2 defaultStep).name == tokenPrompt
  verifyStep env stepIndex isManualSubmission st

/-- private checkMigrationState(): GET /api/migration-state; returns the
parsed state only when the fetch succeeded and the response was ok, and null
when the fetch threw or the response was not ok (the catch only logs). -/
def checkMigrationState (env : Env) : Option MigrationState :=
  match env.gate with
  | .ok ms => some ms
  | .notOk => none
  | .threw _ => none

/-- The trim of the source language (whitespace stripped from both ends),
written over the character list so that it evaluates by reduction. -/
def jsTrim (s : String) : String :=
  String.mk (((s.data.dropWhile Char.isWhitespace).reverse.dropWhile
    Char.isWhitespace).reverse)

/-- private validateParams(params, callbacks) reduced to the message of the
first failing check (none when all pass); the caller marks step index 0
error with that message.  A field fails its check exactly when its trimmed
value is empty (the falsiness test of the source). -/
def validateParams (params : MigrationParams) : Option String :=
  if jsTrim params.service = "" then some "Missing service URL"
  else if jsTrim params.handle = "" then some "Missing handle"
  else if jsTrim params.email = "" then some "Missing email"
  else if jsTrim params.password = "" then some "Missing password"
  else none

/-- Tail of startMigration after the availability gate: parameter
validation, then phase 1, from the reset instance state.  The gate call is
recorded here so that every branch of startMigration logs it. -/
def startAfterGate (env : Env) (params : MigrationParams) : Outcome :=
  match validateParams params with
  | some msg =>
    let (st1, e1) := updateStepStatus 0 .error (some msg) none St.init
    { result := false, st := st1, calls := [.migrationState], events := [e1], deferred := [] }
  | none =>
    let o := executeStep1CreateAccount env params St.init
    { result := o.result, st := o.st, calls := .migrationState :: o.calls,
      events := o.events, deferred := o.deferred }

/-- startMigration(params, callbacks): reset the instance state, consult the
availability gate (firing onStateUpdate when it answered), halt with step
index 0 error when migration is disallowed, then validate parameters and run
phase 1.  Every callee catches internally, so the outer catch of the source
is unreachable here. -/
def startMigration (env : Env) (params : MigrationParams) : Outcome :=
  match checkMigrationState env with
  | some migrationState =>
    if migrationState.allowMigration then
      let o := startAfterGate env params
      { result := o.result, st := o.st, calls := o.calls,
        events := .stateUpdate migrationState :: o.events, deferred := o.deferred }
    else
      let (st1, e1) := updateStepStatus 0 .error (some migrationState.message) none St.init
      { result := false, st := st1, calls := [.migrationState],
        events := [.stateUpdate migrationState, e1], deferred := [] }
  | none => startAfterGate env params

/-- The elementwise rewrite of updateStepStatus preserves the length of the
step list. -/
lemma updateStepsFrom_length (index : Nat) (status : StepStatus) (err : Option String)
    (ver : Option Bool) :
    ∀ (l : List MigrationStep) (k : Nat),
      (updateStepsFrom index status err ver k l).length = l.length := by
  intro l
  induction l with
  | nil => intro k; rfl
  | cons s rest ih => intro k; simp [updateStepsFrom, ih]

/-- Pointwise description of the elementwise rewrite of updateStepStatus:
position j (relative to the running start index k) receives the new fields
when k + j is the target index, is reset to pending with cleared error and
flag when k + j is higher, and is untouched when lower; positions past the
end read the default. -/
lemma getD_updateStepsFrom (index : Nat) (status : StepStatus) (err : Option String)
    (ver : Option Bool) :
    ∀ (l : List MigrationStep) (k j : Nat),
      (updateStepsFrom index status err ver k l).getD j defaultStep =
        if j < l.length then
          (if k + j = index then
            { l.getD j defaultStep with
                status := status, error := err, isVerificationError := ver }
           else if index < k + j then
            { l.getD j defaultStep with
                status := .pending, error := none, isVerificationError := none }
           else l.getD j defaultStep)
        else defaultStep := by
  intro l
  induction l with
  | nil => intro k j; simp [updateStepsFrom]
  | cons s rest ih =>
    intro k j
    cases j with
    | zero => simp [updateStepsFrom]
    | succ j =>
      have hrw : k + (j + 1) = (k + 1) + j := by omega
      simp only [updateStepsFrom, List.getD_cons_succ, List.length_cons,
        Nat.succ_lt_succ_iff, hrw]
      exact ih (k + 1) j

/-- Corollary of the pointwise description: a step of index higher than the
updated one is reset to pending with cleared error and verification flag,
its name untouched. -/
lemma updateSteps_getD_gt (index : Nat) (status : StepStatus) (err : Option String)
    (ver : Option Bool) (l : List MigrationStep) (j : Nat) (hj : index < j) :
    ((updateStepsFrom index status err ver 0 l).getD j defaultStep).status = .pending ∧
    ((updateStepsFrom index status err ver 0 l).getD j defaultStep).error = none ∧
    ((updateStepsFrom index status err ver 0 l).getD j defaultStep).isVerificationError = none ∧
    ((updateStepsFrom index status err ver 0 l).getD j defaultStep).name =
      (l.getD j defaultStep).name := by
  rw [getD_updateStepsFrom]
  by_cases hr : j < l.length
  · rw [if_pos hr, if_neg (by omega), if_pos (by omega)]
    exact ⟨rfl, rfl, rfl, rfl⟩
  · rw [if_neg hr, List.getD_eq_default _ _ (Nat.not_lt.mp hr)]
    exact ⟨rfl, rfl, rfl, rfl⟩

/-- Corollary of the pointwise description: a step of index lower than the
updated one is unchanged. -/
lemma updateSteps_getD_lt (index : Nat) (status : StepStatus) (err : Option String)
    (ver : Option Bool) (l : List MigrationStep) (j : Nat) (hj : j < index) :
    (updateStepsFrom index status err ver 0 l).getD j defaultStep = l.getD j defaultStep := by
  rw [getD_updateStepsFrom]
  by_cases hr : j < l.length
  · rw [if_pos hr, if_neg (by omega), if_neg (by omega)]
  · rw [if_neg hr, List.getD_eq_default _ _ (Nat.not_lt.mp hr)]

/-- Corollary of the pointwise description: the updated step itself carries
the new status, error and verification flag. -/
lemma updateSteps_getD_eq (index : Nat) (status : StepStatus) (err : Option String)
    (ver : Option Bool) (l : List MigrationStep) (hlen : index < l.length) :
    (updateStepsFrom index status err ver 0 l).getD index defaultStep =
      { l.getD index defaultStep with
          status := status, error := err, isVerificationError := ver } := by
  rw [getD_updateStepsFrom, if_pos hlen, if_pos (by omega)]

/-- C5: every update of a step (through updateStepStatus, including the
forced completed written by continueAnyway on the last step) resets every
step of higher index to pending with cleared error and verification flag
(the name is untouched) and leaves every step of lower index unchanged. -/
theorem C5_status_update_frame (index : Nat) (status : StepStatus) (err : Option String)
    (ver : Option Bool) (st : St) (j : Nat) (env : Env) :
    (index < j →
      ((updateStepStatus index status err ver st).1.steps.getD j defaultStep).status = .pending ∧
      ((updateStepStatus index status err ver st).1.steps.getD j defaultStep).error = none ∧
      ((updateStepStatus index status err ver st).1.steps.getD j
        defaultStep).isVerificationError = none ∧
      ((updateStepStatus index status err ver st).1.steps.getD j defaultStep).name =
        (st.steps.getD j defaultStep).name) ∧
    (j < index →
      (updateStepStatus index status err ver st).1.steps.getD j defaultStep =
        st.steps.getD j defaultStep) ∧
    (j < 3 →
      (continueAnyway env 3 st).st.steps.getD j defaultStep = st.steps.getD j defaultStep) ∧
    (3 < st.steps.length →
      ((continueAnyway env 3 st).st.steps.getD 3 defaultStep).status = .completed) := by
  refine ⟨fun hj => ?_, fun hj => ?_, fun hj => ?_, fun hlen => ?_⟩
  · exact updateSteps_getD_gt index status err ver st.steps j hj
  · exact updateSteps_getD_lt index status err ver st.steps j hj
  · show (updateStepsFrom 3 .completed none none 0 st.steps).getD j defaultStep =
      st.steps.getD j defaultStep
    exact updateSteps_getD_lt 3 .completed none none st.steps j hj
  · show ((updateStepsFrom 3 .completed none none 0 st.steps).getD 3 defaultStep).status =
      .completed
    rw [updateSteps_getD_eq 3 .completed none none st.steps hlen]

/-- C6: invoking phase 3 while step index 2 is already in-progress or
completed returns true and has no effect at all: same state, no network
call (in particular no second identity request), no event. -/
theorem C6_phase3_idempotent (env : Env) (st : St)
    (h : (st.steps.getD 2 defaultStep).status = .inProgress ∨
         (st.steps.getD 2 defaultStep).status = .completed) :
    executeStep3IdentityMigration env st =
      { result := true, st := st, calls := [], events := [], deferred := [] } := by
  rw [executeStep3IdentityMigration, if_pos h]

/-- An ok response whose body parses with a truthy success field. -/
def okResp : Resp :=
  { ok := true, raw := "ok body", parsed := some { success := true, message := none } }

/-- A ready verdict of the verification endpoint. -/
def readyStatus : VerificationStatus :=
  { ready := true, reason := none, details := "all checks passed" }

/-- A not-ready verdict of the verification endpoint. -/
def notReadyStatus : VerificationStatus :=
  { ready := false, reason := some "records still indexing", details := "counts lagging" }

/-- Environment in which every endpoint answers successfully and every
verification is ready. -/
def happyEnv : Env :=
  { gate := .ok { state := .up, message := "all systems go", allowMigration := true },
    create := .ok okResp, dataRepo := .ok okResp, dataBlobs := .ok okResp,
    dataPrefs := .ok okResp, identityRequest := .ok okResp,
    identitySign := fun _ => .ok okResp, finalize := .ok okResp,
    status := fun _ => .ok readyStatus }

/-- Valid migration parameters. -/
def goodParams : MigrationParams :=
  { service := "https://pds.example", handle := "alice.example",
    email := "a.b@example.com", password := "secret1", invite := none }

/-- A mid-run state: step 1 completed, step 2 verifying, steps 3 and 4 in
prior error states, counters and override flags set everywhere. -/
def stMixed : St :=
  { steps :=
      [ { name := "Create Account", status := .completed, error := none,
          isVerificationError := none },
        { name := "Migrate Data", status := .verifying, error := none,
          isVerificationError := none },
        { name := "Migrate Identity", status := .error, error := some "old identity failure",
          isVerificationError := some true },
        { name := "Finalize Migration", status := .error, error := some "old finalize failure",
          isVerificationError := some true } ],
    retryAttempts := fun _ => 2, showContinueAnyway := fun _ => true }

/-- Witness for C5 at concrete inputs: updating step index 1 of the mixed
state resets step index 2 and leaves step index 0 alone, and continueAnyway
on the last step keeps the lower steps and forces it completed. -/
theorem C5_status_update_frame_witness :
    (((updateStepStatus 1 .completed none none stMixed).1.steps.getD 2 defaultStep).status =
        .pending ∧
      ((updateStepStatus 1 .completed none none stMixed).1.steps.getD 2 defaultStep).error =
        none ∧
      ((updateStepStatus 1 .completed none none stMixed).1.steps.getD 2
        defaultStep).isVerificationError = none ∧
      ((updateStepStatus 1 .completed none none stMixed).1.steps.getD 2 defaultStep).name =
        (stMixed.steps.getD 2 defaultStep).name) ∧
    (updateStepStatus 1 .completed none none stMixed).1.steps.getD 0 defaultStep =
      stMixed.steps.getD 0 defaultStep ∧
    (continueAnyway happyEnv 3 stMixed).st.steps.getD 1 defaultStep =
      stMixed.steps.getD 1 defaultStep ∧
    ((continueAnyway happyEnv 3 stMixed).st.steps.getD 3 defaultStep).status = .completed :=
  ⟨(C5_status_update_frame 1 .completed none none stMixed 2 happyEnv).1 (by omega),
   (C5_status_update_frame 1 .completed none none stMixed 0 happyEnv).2.1 (by omega),
   (C5_status_update_frame 1 .completed none none stMixed 1 happyEnv).2.2.1 (by omega),
   (C5_status_update_frame 1 .completed none none stMixed 1 happyEnv).2.2.2 (by decide)⟩

/-- A state in which step index 2 is already in-progress (the suspension
point of phase 3, waiting for the token). -/
def stStep3InProgress : St :=
  { steps :=
      [ { name := "Create Account", status := .completed, error := none,
          isVerificationError := none },
        { name := "Migrate Data", status := .completed, error := none,
          isVerificationError := none },
        { name := tokenPrompt, status := .inProgress, error := none,
          isVerificationError := none },
        { name := "Finalize Migration", status := .pending, error := none,
          isVerificationError := none } ],
    retryAttempts := fun _ => 0, showContinueAnyway := fun _ => false }

/-- Witness for C6: with step index 2 in-progress, phase 3 is a no-op that
returns true without a network call. -/
theorem C6_phase3_idempotent_witness :
    executeStep3IdentityMigration happyEnv stStep3InProgress =
      { result := true, st := stStep3InProgress, calls := [], events := [],
        deferred := [] } :=
  C6_phase3_idempotent happyEnv stStep3InProgress (Or.inl rfl)

/-- C7: when the availability gate answers with allowMigration false,
startMigration returns false, step index 0 is in error carrying the gate
message, and the only network call of the run is the gate request itself
(no Remote Capability Client call). -/
theorem C7_gate_disallow (env : Env) (params : MigrationParams) (ms : MigrationState)
    (hgate : env.gate = .ok ms) (hallow : ms.allowMigration = false) :
    (startMigration env params).result = false ∧
    ((startMigration env params).st.steps.getD 0 defaultStep).status = .error ∧
    ((startMigration env params).st.steps.getD 0 defaultStep).error = some ms.message ∧
    (startMigration env params).calls = [Call.migrationState] := by
  simp only [startMigration, checkMigrationState, hgate, hallow, Bool.false_eq_true, if_false]
  refine ⟨by trivial, ?_, ?_, by trivial⟩
  · show ((updateStepsFrom 0 .error (some ms.message) none 0 St.init.steps).getD 0
      defaultStep).status = .error
    rw [updateSteps_getD_eq 0 .error (some ms.message) none St.init.steps (by decide)]
  · show ((updateStepsFrom 0 .error (some ms.message) none 0 St.init.steps).getD 0
      defaultStep).error = some ms.message
    rw [updateSteps_getD_eq 0 .error (some ms.message) none St.init.steps (by decide)]

/-- The gate state of a maintenance window. -/
def closedState : MigrationState :=
  { state := .maintenance, message := "migration disabled for maintenance",
    allowMigration := false }

/-- Witness for C7 at a concrete gate answer. -/
theorem C7_gate_disallow_witness :
    (startMigration { happyEnv with gate := .ok closedState } goodParams).result = false ∧
    ((startMigration { happyEnv with gate := .ok closedState } goodParams).st.steps.getD 0
      defaultStep).status = .error ∧
    ((startMigration { happyEnv with gate := .ok closedState } goodParams).st.steps.getD 0
      defaultStep).error = some closedState.message ∧
    (startMigration { happyEnv with gate := .ok closedState } goodParams).calls =
      [Call.migrationState] :=
  C7_gate_disallow { happyEnv with gate := .ok closedState } goodParams closedState rfl rfl

/-- C8: when the identity-sign endpoint rejects the token (non-success
response), submitIdentityToken returns false, step index 2 is in error
without the verification flag, and the sign request is the only call of the
invocation — in particular phase 4 never starts (no finalize call). -/
theorem C8_token_rejected (env : Env) (token : String) (st : St) (r : Resp)
    (htok : ¬ token = "") (hsign : env.identitySign token = .ok r) (hok : r.ok = false)
    (hlen : 2 < st.steps.length) :
    (submitIdentityToken env token st).result = false ∧
    ((submitIdentityToken env token st).st.steps.getD 2 defaultStep).status = .error ∧
    ((submitIdentityToken env token st).st.steps.getD 2 defaultStep).isVerificationError =
      none ∧
    (submitIdentityToken env token st).calls = [Call.identitySign token] := by
  simp only [submitIdentityToken, if_neg htok, hsign, hok, Bool.false_eq_true, if_false,
    submitFail, updateStepStatus]
  refine ⟨by trivial, ?_, ?_, by trivial⟩
  · show ((updateStepsFrom 2 .error
        (some (nonOkError r.raw "Failed to complete identity migration")) none
        0 st.steps).getD 2 defaultStep).status = .error
    rw [updateSteps_getD_eq 2 .error
      (some (nonOkError r.raw "Failed to complete identity migration")) none st.steps hlen]
  · show ((updateStepsFrom 2 .error
        (some (nonOkError r.raw "Failed to complete identity migration")) none
        0 st.steps).getD 2 defaultStep).isVerificationError = none
    rw [updateSteps_getD_eq 2 .error
      (some (nonOkError r.raw "Failed to complete identity migration")) none st.steps hlen]

/-- A non-success response of the remote, carrying a parsed message that the
client's catch nevertheless discards. -/
def rejectResp : Resp :=
  { ok := false, raw := "raw body text",
    parsed := some { success := false, message := some "Account limit reached" } }

/-- Witness for C8 at concrete inputs. -/
theorem C8_token_rejected_witness :
    (submitIdentityToken { happyEnv with identitySign := fun _ => .ok rejectResp }
      "tok123" stStep3InProgress).result = false ∧
    ((submitIdentityToken { happyEnv with identitySign := fun _ => .ok rejectResp }
      "tok123" stStep3InProgress).st.steps.getD 2 defaultStep).status = .error ∧
    ((submitIdentityToken { happyEnv with identitySign := fun _ => .ok rejectResp }
      "tok123" stStep3InProgress).st.steps.getD 2 defaultStep).isVerificationError = none ∧
    (submitIdentityToken { happyEnv with identitySign := fun _ => .ok rejectResp }
      "tok123" stStep3InProgress).calls = [Call.identitySign "tok123"] :=
  C8_token_rejected { happyEnv with identitySign := fun _ => .ok rejectResp }
    "tok123" stStep3InProgress rejectResp (by decide) rfl rfl (by decide)

/-- A write call succeeded: the fetch resolved and the response was ok. -/
def callOk : Except String Resp → Prop
  | .ok r => r.ok = true
  | .error _ => False

/-- A write call failed: the fetch rejected or the response was non-ok. -/
def callFails (e : Except String Resp) : Prop := ¬ callOk e

/-- A phase ended in a business-logic failure of the given step: returned
false, step in error, verification flag not set. -/
def businessFailure (o : Outcome) (index : Nat) : Prop :=
  o.result = false ∧ (o.st.steps.getD index defaultStep).status = .error ∧
  (o.st.steps.getD index defaultStep).isVerificationError = none

/-- Outside the skipped automatic step-2 check, verifyStep performs exactly
one network call: the status query of its step. -/
lemma verifyStep_calls (env : Env) (i : Nat) (m : Bool) (st : St)
    (h : ¬ (i = 2 ∧ m = false)) : (verifyStep env i m st).calls = [Call.status i] := by
  rw [verifyStep, if_neg h]
  rcases env.status i with e | data
  · rfl
  · by_cases hr : data.ready = true
    · simp [hr]
    · simp [hr, verifyFail]


/-- The failure tail of phase 2 produces exactly the recorded calls and a
business failure of step index 1. -/
lemma step2Fail_props (msg : String) (st1 : St) (e1 : Event) (calls : List Call)
    (hlen : 1 < st1.steps.length) :
    (step2Fail msg st1 e1 calls).calls = calls ∧
    businessFailure (step2Fail msg st1 e1 calls) 1 := by
  simp only [step2Fail, updateStepStatus, businessFailure]
  refine ⟨by trivial, by trivial, ?_, ?_⟩
  · show ((updateStepsFrom 1 .error (some msg) none 0 st1.steps).getD 1 defaultStep).status =
      .error
    rw [updateSteps_getD_eq 1 .error (some msg) none st1.steps hlen]
  · show ((updateStepsFrom 1 .error (some msg) none 0 st1.steps).getD 1
      defaultStep).isVerificationError = none
    rw [updateSteps_getD_eq 1 .error (some msg) none st1.steps hlen]

/-- C9: phase 2 issues its sub-calls in the fixed order repo, blobs, prefs;
when all three are ok it runs the step-2 oracle check (status call) after
entering verifying; the first failing sub-call stops the sequence before
the later sub-calls and before any oracle check, with step index 1 in
business error. -/
theorem C9_phase2_sequence (env : Env) (st : St) (hlen : 1 < st.steps.length) :
    (callOk env.dataRepo → callOk env.dataBlobs → callOk env.dataPrefs →
      (executeStep2DataMigration env st).calls =
        [Call.dataRepo, Call.dataBlobs, Call.dataPrefs, Call.status 1] ∧
      ∃ s, Event.stepUpdate 1 s ∈ (executeStep2DataMigration env st).events ∧
        s.status = .verifying) ∧
    (callFails env.dataRepo →
      (executeStep2DataMigration env st).calls = [Call.dataRepo] ∧
      businessFailure (executeStep2DataMigration env st) 1) ∧
    (callOk env.dataRepo → callFails env.dataBlobs →
      (executeStep2DataMigration env st).calls = [Call.dataRepo, Call.dataBlobs] ∧
      businessFailure (executeStep2DataMigration env st) 1) ∧
    (callOk env.dataRepo → callOk env.dataBlobs → callFails env.dataPrefs →
      (executeStep2DataMigration env st).calls =
        [Call.dataRepo, Call.dataBlobs, Call.dataPrefs] ∧
      businessFailure (executeStep2DataMigration env st) 1) := by
  have hlen1 : 1 < (updateStepsFrom 1 .inProgress none none 0 st.steps).length := by
    rw [updateStepsFrom_length]; exact hlen
  rcases hre : env.dataRepo with m | repoRes
  · refine ⟨fun h => absurd h (by simp [callOk, hre]), fun _ => ?_,
      fun h => absurd h (by simp [callOk, hre]), fun h => absurd h (by simp [callOk, hre])⟩
    simp only [executeStep2DataMigration, hre]
    exact step2Fail_props m _ _ _ hlen1
  · by_cases hrok : repoRes.ok = true
    case neg =>
      refine ⟨fun h => absurd (by simpa [callOk, hre] using h) hrok, fun _ => ?_,
        fun h => absurd (by simpa [callOk, hre] using h) hrok,
        fun h => absurd (by simpa [callOk, hre] using h) hrok⟩
      simp only [executeStep2DataMigration, hre, hrok, Bool.false_eq_true, if_false]
      exact step2Fail_props _ _ _ _ hlen1
    case pos =>
      have hcr : callOk (Except.ok repoRes) := by simp [callOk, hrok]
      rcases hbl : env.dataBlobs with m | blobsRes
      · refine ⟨fun _ h => absurd h (by simp [callOk, hbl]), fun h => absurd hcr h,
          fun _ _ => ?_, fun _ h => absurd h (by simp [callOk, hbl])⟩
        simp only [executeStep2DataMigration, hre, hrok, if_true, hbl]
        exact step2Fail_props m _ _ _ hlen1
      · by_cases hbok : blobsRes.ok = true
        case neg =>
          refine ⟨fun _ h => absurd (by simpa [callOk, hbl] using h) hbok,
            fun h => absurd hcr h, fun _ _ => ?_,
            fun _ h => absurd (by simpa [callOk, hbl] using h) hbok⟩
          simp only [executeStep2DataMigration, hre, hrok, if_true, hbl, hbok,
            Bool.false_eq_true, if_false]
          exact step2Fail_props _ _ _ _ hlen1
        case pos =>
          have hcb : callOk (Except.ok blobsRes) := by simp [callOk, hbok]
          rcases hpr : env.dataPrefs with m | prefsRes
          · refine ⟨fun _ _ h => absurd h (by simp [callOk, hpr]), fun h => absurd hcr h,
              fun _ h => absurd hcb h, fun _ _ _ => ?_⟩
            simp only [executeStep2DataMigration, hre, hrok, if_true, hbl, hbok, hpr]
            exact step2Fail_props m _ _ _ hlen1
          · by_cases hpok : prefsRes.ok = true
            case neg =>
              refine ⟨fun _ _ h => absurd (by simpa [callOk, hpr] using h) hpok,
                fun h => absurd hcr h, fun _ h => absurd hcb h, fun _ _ _ => ?_⟩
              simp only [executeStep2DataMigration, hre, hrok, if_true, hbl, hbok, hpr,
                hpok, Bool.false_eq_true, if_false]
              exact step2Fail_props _ _ _ _ hlen1
            case pos =>
              refine ⟨fun _ _ _ => ?_, fun h => absurd hcr h, fun _ h => absurd hcb h,
                fun _ _ h => absurd (by simp [callOk, hpr, hpok]) h⟩
              simp only [executeStep2DataMigration, hre, hrok, hbl, hbok, hpr, hpok, if_true]
              constructor
              · rw [verifyStep_calls env 1 false _ (by simp)]; rfl
              · refine ⟨(updateStepStatus 1 .verifying none none
                    (updateStepStatus 1 .inProgress none none st).1).1.steps.getD 1
                    defaultStep, List.mem_cons_of_mem _ (List.mem_cons_self _ _), ?_⟩
                show ((updateStepsFrom 1 .verifying none none 0
                    (updateStepsFrom 1 .inProgress none none 0 st.steps)).getD 1
                    defaultStep).status = .verifying
                rw [updateSteps_getD_eq 1 .verifying none none _ hlen1]

/-- Environment in which the repo migration sub-call answers non-ok. -/
def envRepoFail : Env := { happyEnv with dataRepo := .ok rejectResp }

/-- Witness for C9: the all-ok environment issues the three sub-calls and
the oracle check; the repo-failing environment stops after the first. -/
theorem C9_phase2_sequence_witness :
    ((executeStep2DataMigration happyEnv St.init).calls =
        [Call.dataRepo, Call.dataBlobs, Call.dataPrefs, Call.status 1] ∧
      ∃ s, Event.stepUpdate 1 s ∈ (executeStep2DataMigration happyEnv St.init).events ∧
        s.status = .verifying) ∧
    ((executeStep2DataMigration envRepoFail St.init).calls = [Call.dataRepo] ∧
      businessFailure (executeStep2DataMigration envRepoFail St.init) 1) :=
  ⟨(C9_phase2_sequence happyEnv St.init (by decide)).1 rfl rfl rfl,
   (C9_phase2_sequence envRepoFail St.init (by decide)).2.1 Bool.false_ne_true⟩

/-- A method invocation did not touch the retry counters or the override
flags. -/
def retryFrame (o : Outcome) (st : St) : Prop :=
  o.st.retryAttempts = st.retryAttempts ∧ o.st.showContinueAnyway = st.showContinueAnyway

/-- C4: the retry counter of a step increments exactly on a failed oracle
check (not-ready verdict or exception) and the override flag is on after the
update exactly when the new counter has reached 2 (or the flag was already
on); a successful oracle check resets both; and a business-logic write
failure of any phase touches neither the counters nor the flags. -/
theorem C4_retry_override (env : Env) (st : St) (i : Nat) (manual : Bool)
    (params : MigrationParams) (token : String) :
    (¬ (i = 2 ∧ manual = false) →
      ∀ d, env.status i = .ok d → d.ready = false →
        (verifyStep env i manual st).st.retryAttempts i = st.retryAttempts i + 1 ∧
        ((verifyStep env i manual st).st.showContinueAnyway i = true ↔
          2 ≤ st.retryAttempts i + 1 ∨ st.showContinueAnyway i = true)) ∧
    (¬ (i = 2 ∧ manual = false) →
      ∀ m, env.status i = .error m →
        (verifyStep env i manual st).st.retryAttempts i = st.retryAttempts i + 1 ∧
        ((verifyStep env i manual st).st.showContinueAnyway i = true ↔
          2 ≤ st.retryAttempts i + 1 ∨ st.showContinueAnyway i = true)) ∧
    (¬ (i = 2 ∧ manual = false) →
      ∀ d, env.status i = .ok d → d.ready = true →
        (verifyStep env i manual st).st.retryAttempts i = 0 ∧
        (verifyStep env i manual st).st.showContinueAnyway i = false) ∧
    (callFails env.create → retryFrame (executeStep1CreateAccount env params st) st) ∧
    ((callFails env.dataRepo ∨ callFails env.dataBlobs ∨ callFails env.dataPrefs) →
      retryFrame (executeStep2DataMigration env st) st) ∧
    (callFails env.identityRequest → retryFrame (executeStep3IdentityMigration env st) st) ∧
    (callFails env.finalize → retryFrame (executeStep4Finalization env st) st) ∧
    (callFails (env.identitySign token) → retryFrame (submitIdentityToken env token st) st) := by
  refine ⟨?_, ?_, ?_, ?_, ?_, ?_, ?_, ?_⟩
  · intro hskip d hst hready
    simp only [verifyStep, if_neg hskip, hst, hready, Bool.false_eq_true, if_false,
      verifyFail, updateStepStatus]
    by_cases hc : 1 ≤ st.retryAttempts i
    · simp only [hc, if_true]
      exact ⟨by simp [upd], iff_of_true (by simp [upd]) (Or.inl (by omega))⟩
    · simp only [hc, if_false]
      refine ⟨by simp [upd], ?_⟩
      constructor
      · intro hs; exact Or.inr hs
      · rintro (hge | hs)
        · omega
        · exact hs
  · intro hskip m hst
    simp only [verifyStep, if_neg hskip, hst, verifyFail, updateStepStatus]
    by_cases hc : 1 ≤ st.retryAttempts i
    · simp only [hc, if_true]
      exact ⟨by simp [upd], iff_of_true (by simp [upd]) (Or.inl (by omega))⟩
    · simp only [hc, if_false]
      refine ⟨by simp [upd], ?_⟩
      constructor
      · intro hs; exact Or.inr hs
      · rintro (hge | hs)
        · omega
        · exact hs
  · intro hskip d hst hready
    simp [verifyStep, if_neg hskip, hst, hready, updateStepStatus, upd]
  · intro h
    rcases hc : env.create with m | resp
    · simp only [executeStep1CreateAccount, hc, updateStepStatus, retryFrame]
      exact ⟨by trivial, by trivial⟩
    · rw [hc] at h
      by_cases hok : resp.ok = true
      · exact absurd (by simpa [callOk] using hok) h
      · simp only [executeStep1CreateAccount, hc, hok, Bool.false_eq_true, if_false,
          updateStepStatus, retryFrame]
        exact ⟨by trivial, by trivial⟩
  · intro h
    rcases hre : env.dataRepo with m | repoRes
    · simp only [executeStep2DataMigration, hre, step2Fail, updateStepStatus, retryFrame]
      exact ⟨by trivial, by trivial⟩
    · by_cases hrok : repoRes.ok = true
      case neg =>
        simp only [executeStep2DataMigration, hre, hrok, Bool.false_eq_true, if_false,
          step2Fail, updateStepStatus, retryFrame]
        exact ⟨by trivial, by trivial⟩
      case pos =>
        rcases hbl : env.dataBlobs with m | blobsRes
        · simp only [executeStep2DataMigration, hre, hrok, if_true, hbl, step2Fail,
            updateStepStatus, retryFrame]
          exact ⟨by trivial, by trivial⟩
        · by_cases hbok : blobsRes.ok = true
          case neg =>
            simp only [executeStep2DataMigration, hre, hrok, if_true, hbl, hbok,
              Bool.false_eq_true, if_false, step2Fail, updateStepStatus, retryFrame]
            exact ⟨by trivial, by trivial⟩
          case pos =>
            rcases hpr : env.dataPrefs with m | prefsRes
            · simp only [executeStep2DataMigration, hre, hrok, if_true, hbl, hbok, hpr,
                step2Fail, updateStepStatus, retryFrame]
              exact ⟨by trivial, by trivial⟩
            · by_cases hpok : prefsRes.ok = true
              case neg =>
                simp only [executeStep2DataMigration, hre, hrok, if_true, hbl, hbok, hpr,
                  hpok, Bool.false_eq_true, if_false, step2Fail, updateStepStatus, retryFrame]
                exact ⟨by trivial, by trivial⟩
              case pos =>
                rw [hre, hbl, hpr] at h
                rcases h with h | h | h
                · exact absurd (by simpa [callOk] using hrok) h
                · exact absurd (by simpa [callOk] using hbok) h
                · exact absurd (by simpa [callOk] using hpok) h
  · intro _
    by_cases hg : (st.steps.getD 2 defaultStep).status = .inProgress ∨
        (st.steps.getD 2 defaultStep).status = .completed
    · simp only [executeStep3IdentityMigration, if_pos hg, retryFrame]
      exact ⟨by trivial, by trivial⟩
    · rcases hir : env.identityRequest with m | resp
      · simp only [executeStep3IdentityMigration, if_neg hg, hir, step3Fail,
          updateStepStatus, retryFrame]
        exact ⟨by trivial, by trivial⟩
      · by_cases hok : resp.ok = true
        case neg =>
          simp only [executeStep3IdentityMigration, if_neg hg, hir, hok,
            Bool.false_eq_true, if_false, step3Fail, updateStepStatus, retryFrame]
          exact ⟨by trivial, by trivial⟩
        case pos =>
          by_cases hb : okBodyAccepted resp = true
          · simp only [executeStep3IdentityMigration, if_neg hg, hir, hok, hb, if_true,
              updateStepStatus, retryFrame]
            exact ⟨by trivial, by trivial⟩
          · simp only [executeStep3IdentityMigration, if_neg hg, hir, hok, hb, if_true,
              Bool.false_eq_true, if_false, step3Fail, updateStepStatus, retryFrame]
            exact ⟨by trivial, by trivial⟩
  · intro h
    rcases hf : env.finalize with m | resp
    · simp only [executeStep4Finalization, hf, step4Fail, updateStepStatus, retryFrame]
      exact ⟨by trivial, by trivial⟩
    · rw [hf] at h
      by_cases hok : resp.ok = true
      · exact absurd (by simpa [callOk] using hok) h
      · simp only [executeStep4Finalization, hf, hok, Bool.false_eq_true, if_false,
          step4Fail, updateStepStatus, retryFrame]
        exact ⟨by trivial, by trivial⟩
  · intro h
    by_cases ht : token = ""
    · simp only [submitIdentityToken, if_pos ht, retryFrame]
      exact ⟨by trivial, by trivial⟩
    · rcases hs : env.identitySign token with m | resp
      · simp only [submitIdentityToken, if_neg ht, hs, submitFail, updateStepStatus,
          retryFrame]
        exact ⟨by trivial, by trivial⟩
      · rw [hs] at h
        by_cases hok : resp.ok = true
        · exact absurd (by simpa [callOk] using hok) h
        · simp only [submitIdentityToken, if_neg ht, hs, hok, Bool.false_eq_true, if_false,
            submitFail, updateStepStatus, retryFrame]
          exact ⟨by trivial, by trivial⟩

/-- Environment whose oracle always answers not-ready. -/
def envNotReady : Env := { happyEnv with status := fun _ => .ok notReadyStatus }

/-- Environment whose create-account call answers non-ok. -/
def envCreateFail : Env := { happyEnv with create := .ok rejectResp }

/-- Witness for C4: a first oracle failure increments the counter of step
index 0 without enabling the override, a ready verdict resets step index 3,
and a failing create call leaves the retry state untouched. -/
theorem C4_retry_override_witness :
    ((verifyStep envNotReady 0 false St.init).st.retryAttempts 0 =
        St.init.retryAttempts 0 + 1 ∧
      ((verifyStep envNotReady 0 false St.init).st.showContinueAnyway 0 = true ↔
        2 ≤ St.init.retryAttempts 0 + 1 ∨ St.init.showContinueAnyway 0 = true)) ∧
    ((verifyStep happyEnv 3 false St.init).st.retryAttempts 3 = 0 ∧
      (verifyStep happyEnv 3 false St.init).st.showContinueAnyway 3 = false) ∧
    retryFrame (executeStep1CreateAccount envCreateFail goodParams St.init) St.init :=
  ⟨(C4_retry_override envNotReady St.init 0 false goodParams "t").1 (by simp)
      notReadyStatus rfl rfl,
   (C4_retry_override happyEnv St.init 3 false goodParams "t").2.2.1 (by simp)
      readyStatus rfl rfl,
   (C4_retry_override envCreateFail St.init 0 false goodParams "t").2.2.2.1
      Bool.false_ne_true⟩

/-- The availability-gate field of the environment plays no part in the
post-gate tail of startMigration (validation and phase 1 never read it). -/
lemma startAfterGate_gate (g₁ g₂ : GateResult) (cr re bl pr ir : Except String Resp)
    (si : String → Except String Resp) (fi : Except String Resp)
    (stt : Nat → Except String VerificationStatus) (params : MigrationParams) :
    startAfterGate ⟨g₁, cr, re, bl, pr, ir, si, fi, stt⟩ params =
      startAfterGate ⟨g₂, cr, re, bl, pr, ir, si, fi, stt⟩ params := rfl

/-- C10: the availability gate is fail-open.  When the gate request throws
or answers non-ok, checkMigrationState yields null, startMigration falls
through to parameter validation and phase 1 (its post-gate tail), and the
returned boolean, the step state, the calls and the deferred tasks are the
same as with a gate that allows migration. -/
theorem C10_gate_fail_open (g : GateResult) (cr re bl pr ir : Except String Resp)
    (si : String → Except String Resp) (fi : Except String Resp)
    (stt : Nat → Except String VerificationStatus) (params : MigrationParams)
    (ms : MigrationState)
    (hgate : g = .notOk ∨ ∃ m, g = .threw m) (hallow : ms.allowMigration = true) :
    checkMigrationState ⟨g, cr, re, bl, pr, ir, si, fi, stt⟩ = none ∧
    startMigration ⟨g, cr, re, bl, pr, ir, si, fi, stt⟩ params =
      startAfterGate ⟨g, cr, re, bl, pr, ir, si, fi, stt⟩ params ∧
    (startMigration ⟨g, cr, re, bl, pr, ir, si, fi, stt⟩ params).result =
      (startMigration ⟨.ok ms, cr, re, bl, pr, ir, si, fi, stt⟩ params).result ∧
    (startMigration ⟨g, cr, re, bl, pr, ir, si, fi, stt⟩ params).st =
      (startMigration ⟨.ok ms, cr, re, bl, pr, ir, si, fi, stt⟩ params).st ∧
    (startMigration ⟨g, cr, re, bl, pr, ir, si, fi, stt⟩ params).calls =
      (startMigration ⟨.ok ms, cr, re, bl, pr, ir, si, fi, stt⟩ params).calls ∧
    (startMigration ⟨g, cr, re, bl, pr, ir, si, fi, stt⟩ params).deferred =
      (startMigration ⟨.ok ms, cr, re, bl, pr, ir, si, fi, stt⟩ params).deferred := by
  have hok : startMigration ⟨.ok ms, cr, re, bl, pr, ir, si, fi, stt⟩ params =
      { result := (startAfterGate ⟨.ok ms, cr, re, bl, pr, ir, si, fi, stt⟩ params).result,
        st := (startAfterGate ⟨.ok ms, cr, re, bl, pr, ir, si, fi, stt⟩ params).st,
        calls := (startAfterGate ⟨.ok ms, cr, re, bl, pr, ir, si, fi, stt⟩ params).calls,
        events := Event.stateUpdate ms ::
          (startAfterGate ⟨.ok ms, cr, re, bl, pr, ir, si, fi, stt⟩ params).events,
        deferred :=
          (startAfterGate ⟨.ok ms, cr, re, bl, pr, ir, si, fi, stt⟩ params).deferred } := by
    simp only [startMigration, checkMigrationState, hallow, if_true]
  rcases hgate with h | ⟨m, h⟩ <;> subst h <;>
    refine ⟨rfl, rfl, ?_, ?_, ?_, ?_⟩ <;> rw [hok] <;> rfl

/-- Environment whose gate request answers non-ok. -/
def gateDownEnv : Env := { happyEnv with gate := .notOk }

/-- A gate answer that allows migration. -/
def allowState : MigrationState :=
  { state := .up, message := "all systems go", allowMigration := true }

/-- Witness for C10 at a concrete failing gate. -/
theorem C10_gate_fail_open_witness :
    checkMigrationState gateDownEnv = none ∧
    startMigration gateDownEnv goodParams = startAfterGate gateDownEnv goodParams ∧
    (startMigration gateDownEnv goodParams).result =
      (startMigration { gateDownEnv with gate := .ok allowState } goodParams).result ∧
    (startMigration gateDownEnv goodParams).st =
      (startMigration { gateDownEnv with gate := .ok allowState } goodParams).st ∧
    (startMigration gateDownEnv goodParams).calls =
      (startMigration { gateDownEnv with gate := .ok allowState } goodParams).calls ∧
    (startMigration gateDownEnv goodParams).deferred =
      (startMigration { gateDownEnv with gate := .ok allowState } goodParams).deferred :=
  C10_gate_fail_open .notOk (.ok okResp) (.ok okResp) (.ok okResp) (.ok okResp) (.ok okResp)
    (fun _ => .ok okResp) (.ok okResp) (fun _ => .ok readyStatus) goodParams allowState
    (Or.inl rfl) rfl

/-- Number of onMigrationComplete firings in an event list. -/
def completeCount : List Event → Nat
  | [] => 0
  | Event.migrationComplete :: rest => completeCount rest + 1
  | _ :: rest => completeCount rest

/-- completeCount distributes over concatenation. -/
lemma completeCount_append : ∀ a b : List Event,
    completeCount (a ++ b) = completeCount a + completeCount b := by
  intro a b
  induction a with
  | nil => simp [completeCount]
  | cons e rest ih => cases e <;> simp [completeCount, ih] <;> omega

/-- verifyStep never fires onMigrationComplete. -/
lemma verifyStep_no_complete (env : Env) (i : Nat) (m : Bool) (st : St) :
    completeCount (verifyStep env i m st).events = 0 := by
  rw [verifyStep]
  by_cases h : i = 2 ∧ m = false
  · rw [if_pos h]; rfl
  · rw [if_neg h]
    rcases env.status i with e | data
    · by_cases hc : 1 ≤ st.retryAttempts i <;>
        simp [verifyFail, updateStepStatus, hc, completeCount, completeCount_append]
    · by_cases hr : data.ready = true
      · simp [hr, updateStepStatus, completeCount]
      · by_cases hc : 1 ≤ st.retryAttempts i <;>
          simp [hr, verifyFail, updateStepStatus, hc, completeCount, completeCount_append]

/-- C2 (amended): onMigrationComplete fires exactly once when phase 4
completes through finalization with a successful verification, but fires
zero times when step index 3 is completed through continueAnyway(3), and
zero times when it completes through retryVerification(3). -/
theorem C2_complete_callback (env : Env) (st : St) :
    ((executeStep4Finalization env st).result = true →
      completeCount (executeStep4Finalization env st).events = 1) ∧
    completeCount (continueAnyway env 3 st).events = 0 ∧
    completeCount (retryVerification env 3 st).events = 0 := by
  refine ⟨?_, ?_, ?_⟩
  · intro h
    rcases hf : env.finalize with m | resp
    · simp only [executeStep4Finalization, hf, step4Fail, updateStepStatus,
        Bool.false_eq_true] at h
    · by_cases hok : resp.ok = true
      case neg =>
        simp only [executeStep4Finalization, hf, hok, Bool.false_eq_true, if_false,
          step4Fail, updateStepStatus] at h
      case pos =>
        by_cases hb : okBodyAccepted resp = true
        case neg =>
          simp only [executeStep4Finalization, hf, hok, if_true, hb, Bool.false_eq_true,
            if_false, step4Fail, updateStepStatus] at h
        case pos =>
          simp only [executeStep4Finalization, hf, hok, hb, if_true, updateStepStatus] at h ⊢
          split at h
          next hv =>
            rw [if_pos hv]
            simp [completeCount, completeCount_append, verifyStep_no_complete]
          next hv => simp at h
  · simp [continueAnyway, updateStepStatus, completeCount]
  · exact verifyStep_no_complete env 3 false st

/-- Counterexample for C2 as stated: continueAnyway on step index 3 drives
step 4 to completed, returns true, and fires onMigrationComplete zero
times. -/
theorem C2_counterexample :
    (continueAnyway happyEnv 3 stMixed).result = true ∧
    ((continueAnyway happyEnv 3 stMixed).st.steps.getD 3 defaultStep).status = .completed ∧
    completeCount (continueAnyway happyEnv 3 stMixed).events = 0 := by
  refine ⟨rfl, rfl, rfl⟩

/-- Witness for C2 (amended) at concrete inputs. -/
theorem C2_complete_callback_witness :
    completeCount (executeStep4Finalization happyEnv stMixed).events = 1 ∧
    completeCount (retryVerification happyEnv 3 stMixed).events = 0 :=
  ⟨(C2_complete_callback happyEnv stMixed).1 rfl,
   (C2_complete_callback happyEnv stMixed).2.2⟩

/-- When the post-gate tail of startMigration returns true, only phase 1
has run: step index 0 is completed, steps 1-3 are still pending, and phase 2
sits in the deferred timer queue. -/
lemma startAfterGate_true (env : Env) (params : MigrationParams)
    (h : (startAfterGate env params).result = true) :
    ((startAfterGate env params).st.steps.getD 0 defaultStep).status = .completed ∧
    ((startAfterGate env params).st.steps.getD 1 defaultStep).status = .pending ∧
    ((startAfterGate env params).st.steps.getD 2 defaultStep).status = .pending ∧
    ((startAfterGate env params).st.steps.getD 3 defaultStep).status = .pending ∧
    (startAfterGate env params).deferred = [1] := by
  rcases hv : validateParams params with _ | msg
  case some => simp only [startAfterGate, hv, Bool.false_eq_true] at h
  case none =>
    simp only [startAfterGate, hv] at h ⊢
    rcases hc : env.create with m | resp
    · simp only [executeStep1CreateAccount, hc, updateStepStatus, Bool.false_eq_true] at h
    · by_cases hok : resp.ok = true
      case neg =>
        simp only [executeStep1CreateAccount, hc, hok, Bool.false_eq_true, if_false,
          updateStepStatus] at h
      case pos =>
        simp only [executeStep1CreateAccount, hc, hok, if_true, updateStepStatus,
          verifyStep] at h ⊢
        rw [if_neg (show ¬ ((0 : Nat) = 2 ∧ True) from by simp)] at h ⊢
        rcases hs : env.status 0 with e | data
        · simp only [hs, verifyFail, updateStepStatus, Bool.false_eq_true] at h
        · by_cases hr : data.ready = true
          case neg =>
            simp only [hs, hr, Bool.false_eq_true, if_false, verifyFail,
              updateStepStatus] at h
          case pos =>
            simp only [hs, hr, if_true]
            refine ⟨by decide, by decide, by decide, by decide, by decide⟩

/-- C1 (amended): startMigration returns true exactly on the synchronous
success of phase 1; at that moment steps 2-4 are still pending and phase 2
is only scheduled as a deferred timer task, the rest of the sequence
completing asynchronously after the call has returned. -/
theorem C1_start_returns_after_phase1 (env : Env) (params : MigrationParams)
    (h : (startMigration env params).result = true) :
    ((startMigration env params).st.steps.getD 0 defaultStep).status = .completed ∧
    ((startMigration env params).st.steps.getD 1 defaultStep).status = .pending ∧
    ((startMigration env params).st.steps.getD 2 defaultStep).status = .pending ∧
    ((startMigration env params).st.steps.getD 3 defaultStep).status = .pending ∧
    (startMigration env params).deferred = [1] := by
  rcases hg : env.gate with m | _ | ms
  · have hred : startMigration env params = startAfterGate env params := by
      simp only [startMigration, checkMigrationState, hg]
    rw [hred] at h ⊢
    exact startAfterGate_true env params h
  · have hred : startMigration env params = startAfterGate env params := by
      simp only [startMigration, checkMigrationState, hg]
    rw [hred] at h ⊢
    exact startAfterGate_true env params h
  · by_cases ha : ms.allowMigration = true
    · have hred : (startMigration env params).result = (startAfterGate env params).result ∧
          (startMigration env params).st = (startAfterGate env params).st ∧
          (startMigration env params).deferred = (startAfterGate env params).deferred := by
        simp only [startMigration, checkMigrationState, hg, ha, if_true]
        exact ⟨by trivial, by trivial, by trivial⟩
      rw [hred.1] at h
      rw [hred.2.1, hred.2.2]
      exact startAfterGate_true env params h
    · simp only [startMigration, checkMigrationState, hg, if_neg ha, updateStepStatus,
        Bool.false_eq_true] at h

/-- Counterexample for C1 as stated: in the all-success environment
startMigration returns true while steps 2-4 are still pending (the
four-phase sequence has not completed when the call returns). -/
theorem C1_counterexample :
    (startMigration happyEnv goodParams).result = true ∧
    ((startMigration happyEnv goodParams).st.steps.getD 1 defaultStep).status = .pending ∧
    ((startMigration happyEnv goodParams).st.steps.getD 2 defaultStep).status = .pending ∧
    ((startMigration happyEnv goodParams).st.steps.getD 3 defaultStep).status = .pending := by
  refine ⟨by decide, by decide, by decide, by decide⟩

/-- Witness for C1 (amended) at concrete inputs. -/
theorem C1_start_returns_after_phase1_witness :
    ((startMigration happyEnv goodParams).st.steps.getD 0 defaultStep).status = .completed ∧
    ((startMigration happyEnv goodParams).st.steps.getD 1 defaultStep).status = .pending ∧
    ((startMigration happyEnv goodParams).st.steps.getD 2 defaultStep).status = .pending ∧
    ((startMigration happyEnv goodParams).st.steps.getD 3 defaultStep).status = .pending ∧
    (startMigration happyEnv goodParams).deferred = [1] :=
  C1_start_returns_after_phase1 happyEnv goodParams (by decide)

/-- C3 (divergence exhibited): on a non-ok create response whose body parses
to a message field, the step error stores the raw body, not the parsed
message, because the inner throw of the extraction branch is caught by its
own surrounding catch. -/
theorem C3_raw_body_stored :
    envCreateFail.create = .ok rejectResp ∧
    rejectResp.parsed = some { success := false, message := some "Account limit reached" } ∧
    ((executeStep1CreateAccount envCreateFail goodParams St.init).st.steps.getD 0
      defaultStep).error = some "raw body text" ∧
    ((executeStep1CreateAccount envCreateFail goodParams St.init).st.steps.getD 0
      defaultStep).error ≠ some "Account limit reached" ∧
    (executeStep1CreateAccount envCreateFail goodParams St.init).result = false := by
  refine ⟨rfl, rfl, by decide, by decide, by decide⟩
